import Mathlib

/-!
Shallow embedding of the chat-server core of the repository
(`server/routes.ts` = src/unnamed/part_002, `server/storage.ts` =
src/unnamed/part_001, `shared/schema.ts`), covering the per-IP rate
limiter, the provider-adapter request builder and response extractor,
the `POST /api/chat` handler, and the in-memory storage layer.
Times are modelled in milliseconds as naturals (JS `Date.now()`), JSON
values as an inductive type, and JS `Map` objects as association lists
(`Map.set` replaces in place or appends, preserving insertion order).
-/

/-- A JSON value, as produced by `express.json()` and vendor APIs. -/
inductive Json where
  | str : String → Json
  | num : Nat → Json
  | bool : Bool → Json
  | null : Json
  | arr : List Json → Json
  | obj : List (String × Json) → Json
deriving Repr

/-- JS property access `j.k` on an object: first binding of key `k`, else `undefined`. -/
def jGet (k : String) (j : Json) : Option Json :=
  match j with
  | Json.obj kvs => (kvs.find? (fun p => p.1 == k)).map (fun p => p.2)
  | _ => none

/-- JS index access `j[i]` on an array, else `undefined`. -/
def jIdx (i : Nat) (j : Json) : Option Json :=
  match j with
  | Json.arr xs => xs.get? i
  | _ => none

/-- View a JSON value as a string, when it is one. -/
def jStr : Json → Option String
  | Json.str s => some s
  | _ => none

/-- Message role, constrained by `chatRequestSchema` to user or assistant. -/
inductive Role where
  | user : Role
  | assistant : Role
deriving DecidableEq, Repr

/-- One entry of the `messages` array of a chat request (`shared/schema.ts`). -/
structure ChatMessage where
  role : Role
  content : String
deriving DecidableEq, Repr

/-- The validated payload of `chatRequestSchema`: chatId, messages, optional model. -/
structure ChatRequest where
  chatId : String
  messages : List ChatMessage
  model : Option String
deriving DecidableEq, Repr

/-- A persisted Message record (`shared/schema.ts` / `MemStorage`), with the
generated id modelled as a natural counter value. -/
structure Message where
  id : Nat
  chatId : String
  role : Role
  content : String
  model : Option String
  timestamp : Nat
deriving DecidableEq, Repr

/-- A persisted Chat record. -/
structure Chat where
  id : String
  name : String
  createdAt : Nat
  userId : Option String
deriving DecidableEq, Repr

/-- Lookup in a JS `Map` modelled as an association list (`Map.get`). -/
def mapLookup {α : Type} : List (String × α) → String → Option α
  | [], _ => none
  | (k, v) :: rest, key => if k == key then some v else mapLookup rest key

/-- JS `Map.set`: replace the binding in place if the key exists, else append. -/
def mapSet {α : Type} : List (String × α) → String → α → List (String × α)
  | [], key, v => [(key, v)]
  | (k, w) :: rest, key, v =>
      if k == key then (k, v) :: rest else (k, w) :: mapSet rest key v

/-- One value of `rateLimitMap`: request count and window reset time (ms). -/
structure RateLimitEntry where
  count : Nat
  resetTime : Nat
deriving DecidableEq, Repr

/-- The rate limiter state `rateLimitMap`. -/
abbrev RLMap : Type := List (String × RateLimitEntry)

/-- Embedding of `checkRateLimit` (routes.ts lines 11-26): returns the allowed
flag and the updated map. A missing entry or `now > resetTime` installs a fresh
window with count 1 and resetTime `now + 60000`; within the window the call is
rejected when `count >= limit`, else the count is incremented in place. -/
def checkRateLimit (m : RLMap) (ip : String) (limit : Nat) (now : Nat) :
    Bool × RLMap :=
  match mapLookup m ip with
  | none => (true, mapSet m ip ⟨1, now + 60000⟩)
  | some e =>
      if e.resetTime < now then (true, mapSet m ip ⟨1, now + 60000⟩)
      else if limit ≤ e.count then (false, m)
      else (true, mapSet m ip ⟨e.count + 1, e.resetTime⟩)

/-- A sequence of `checkRateLimit` calls for one client at the given times,
returning the list of allowed flags and the final map. -/
def runCalls (m : RLMap) (ip : String) (limit : Nat) : List Nat → List Bool × RLMap
  | [] => ([], m)
  | t :: ts =>
      let r := checkRateLimit m ip limit t
      let rest := runCalls r.2 ip limit ts
      (r.1 :: rest.1, rest.2)

theorem mapLookup_mapSet_self {α : Type} (m : List (String × α)) (key : String) (v : α) :
    mapLookup (mapSet m key v) key = some v := by
  induction m with
  | nil => simp [mapLookup, mapSet]
  | cons p rest ih =>
      obtain ⟨k, w⟩ := p
      by_cases hk : k == key
      · simp [mapLookup, mapSet, hk]
      · simp [mapLookup, mapSet, hk, ih]

theorem mapSet_mapSet {α : Type} (m : List (String × α)) (key : String) (v w : α) :
    mapSet (mapSet m key v) key w = mapSet m key w := by
  induction m with
  | nil => simp [mapSet]
  | cons p rest ih =>
      obtain ⟨k, u⟩ := p
      by_cases hk : k == key
      · simp [mapSet, hk]
      · simp [mapSet, hk, ih]

theorem mapSet_lookup_self {α : Type} (m : List (String × α)) (key : String) (v : α)
    (h : mapLookup m key = some v) : mapSet m key v = m := by
  induction m with
  | nil => simp [mapLookup] at h
  | cons p rest ih =>
      obtain ⟨k, u⟩ := p
      by_cases hk : k == key
      · simp [mapLookup, hk] at h
        simp [mapSet, hk, h]
      · simp [mapLookup, hk] at h
        simp [mapSet, hk, ih h]

theorem checkRateLimit_fresh (m : RLMap) (ip : String) (limit now : Nat)
    (h : mapLookup m ip = none) :
    checkRateLimit m ip limit now = (true, mapSet m ip ⟨1, now + 60000⟩) := by
  simp [checkRateLimit, h]

theorem checkRateLimit_inc (m : RLMap) (ip : String) (limit now c r : Nat)
    (h : mapLookup m ip = some ⟨c, r⟩) (hw : now ≤ r) (hc : c < limit) :
    checkRateLimit m ip limit now = (true, mapSet m ip ⟨c + 1, r⟩) := by
  simp [checkRateLimit, h, Nat.not_lt.mpr hw, Nat.not_le.mpr hc]

theorem checkRateLimit_reject (m : RLMap) (ip : String) (limit now c r : Nat)
    (h : mapLookup m ip = some ⟨c, r⟩) (hw : now ≤ r) (hc : limit ≤ c) :
    checkRateLimit m ip limit now = (false, m) := by
  simp [checkRateLimit, h, Nat.not_lt.mpr hw, hc]

theorem checkRateLimit_expired (m : RLMap) (ip : String) (limit now c r : Nat)
    (h : mapLookup m ip = some ⟨c, r⟩) (hw : r < now) :
    checkRateLimit m ip limit now = (true, mapSet m ip ⟨1, now + 60000⟩) := by
  simp [checkRateLimit, h, hw]

theorem checkRateLimit_false_eq (m : RLMap) (ip : String) (limit now : Nat)
    (h : (checkRateLimit m ip limit now).1 = false) :
    checkRateLimit m ip limit now = (false, m) := by
  unfold checkRateLimit at h ⊢
  cases hl : mapLookup m ip with
  | none => simp [hl] at h
  | some e =>
      simp only [hl] at h ⊢
      by_cases h1 : e.resetTime < now
      · simp [h1] at h
      · by_cases h2 : limit ≤ e.count
        · simp [h1, h2]
        · simp [h1, h2] at h

theorem runCalls_fill (ip : String) (limit : Nat) (ts : List Nat) :
    ∀ (m : RLMap) (c r : Nat), mapLookup m ip = some ⟨c, r⟩ →
    (∀ t ∈ ts, t ≤ r) → c + ts.length ≤ limit →
    runCalls m ip limit ts = (List.replicate ts.length true, mapSet m ip ⟨c + ts.length, r⟩) := by
  induction ts with
  | nil =>
      intro m c r hm _ _
      simp [runCalls, mapSet_lookup_self m ip ⟨c, r⟩ hm]
  | cons t ts ih =>
      intro m c r hm hts hlen
      have ht : t ≤ r := hts t (List.mem_cons_self t ts)
      have hc : c < limit := by
        have := hlen
        simp [List.length_cons] at this
        omega
      have hstep := checkRateLimit_inc m ip limit t c r hm ht hc
      have hm2 : mapLookup (mapSet m ip ⟨c + 1, r⟩) ip = some ⟨c + 1, r⟩ :=
        mapLookup_mapSet_self m ip ⟨c + 1, r⟩
      have hts2 : ∀ u ∈ ts, u ≤ r := fun u hu => hts u (List.mem_cons_of_mem t hu)
      have hlen2 : (c + 1) + ts.length ≤ limit := by
        simp [List.length_cons] at hlen
        omega
      have hrec := ih (mapSet m ip ⟨c + 1, r⟩) (c + 1) r hm2 hts2 hlen2
      simp only [runCalls, hstep, hrec, mapSet_mapSet]
      have h3 : c + 1 + ts.length = c + (t :: ts).length := by
        simp [List.length_cons]
        omega
      rw [h3]
      simp [List.replicate_succ, List.length_cons]

/-- Parse one element of the `messages` array per `chatRequestSchema`:
an object whose `role` is the string user or assistant and whose
`content` is a string. -/
def parseChatMessage (j : Json) : Option ChatMessage :=
  match jGet "role" j, jGet "content" j with
  | some (Json.str "user"), some (Json.str c) => some ⟨Role.user, c⟩
  | some (Json.str "assistant"), some (Json.str c) => some ⟨Role.assistant, c⟩
  | _, _ => none

/-- Embedding of `chatRequestSchema.safeParse` (shared/schema.ts lines 80-87):
`chatId` a string, `messages` an array of valid message objects (an empty
array is accepted), `model` an optional string. Extra keys are ignored, as
zod strips them. -/
def chatRequestParse (body : Json) : Option ChatRequest :=
  match jGet "chatId" body with
  | some (Json.str cid) =>
      match jGet "messages" body with
      | some (Json.arr xs) =>
          match xs.mapM parseChatMessage with
          | some ms =>
              match jGet "model" body with
              | none => some ⟨cid, ms, none⟩
              | some (Json.str s) => some ⟨cid, ms, some s⟩
              | some _ => none
          | none => none
      | _ => none
  | _ => none

/-- JS `req.body.k || dflt`: the string value of key `k` when present and
truthy (nonempty), else the default. -/
def getStringOr (body : Json) (k : String) (dflt : String) : String :=
  match (jGet k body).bind jStr with
  | some s => if s = "" then dflt else s
  | none => dflt

/-- The `DEFAULT_ENDPOINTS` table (routes.ts lines 141-148). -/
def defaultEndpoints (p : String) : String :=
  if p == "github" then "https://models.inference.ai.azure.com"
  else if p == "openai" then "https://api.openai.com/v1"
  else if p == "anthropic" then "https://api.anthropic.com"
  else if p == "cohere" then "https://api.cohere.ai/v1"
  else if p == "gemini" then "https://generativelanguage.googleapis.com/v1beta"
  else if p == "mistral" then "https://api.mistral.ai/v1"
  else ""

/-- The outbound HTTP request to the vendor: URL, header list, JSON body. -/
structure OutboundRequest where
  url : String
  headers : List (String × String)
  body : Json
deriving Repr

/-- Serialize the role for the outbound request body. -/
def roleString : Role → String
  | Role.user => "user"
  | Role.assistant => "assistant"

/-- One element of the outbound `messages` array. -/
def msgJson (m : ChatMessage) : Json :=
  Json.obj [("role", Json.str (roleString m.role)), ("content", Json.str m.content)]

/-- JS `obj.k = v` on the request body object: appends the new field. -/
def jAddField (j : Json) (k : String) (v : Json) : Json :=
  match j with
  | Json.obj kvs => Json.obj (kvs ++ [(k, v)])
  | _ => j

/-- The content of `messages[messages.length - 1]` as read by the gemini
branch (routes.ts line 234). The handler dereferences the last message at
line 188 before this point and throws on an empty list, so the empty-list
default here is never reached from the handler. -/
def lastContentD (messages : List ChatMessage) : String :=
  (messages.getLast?.map (fun m => m.content)).getD ""

/-- Embedding of the provider dispatch (routes.ts lines 203-241): start from
the OpenAI-style URL, headers and body, then adjust per provider. The gemini
branch replaces the URL and the whole body, keeping only the Content-Type
header and sending only the final message text. -/
def buildProviderRequest (provider endpoint apiKey model : String)
    (messages : List ChatMessage) : OutboundRequest :=
  let baseUrl := endpoint ++ "/chat/completions"
  let baseHeaders : List (String × String) := [("Content-Type", "application/json")]
  let baseBody : Json := Json.obj
    [("model", Json.str model), ("messages", Json.arr (messages.map msgJson))]
  if provider == "github" || provider == "openai" then
    { url := baseUrl,
      headers := baseHeaders ++ [("Authorization", "Bearer " ++ apiKey)],
      body := jAddField baseBody "max_completion_tokens" (Json.num 4000) }
  else if provider == "anthropic" then
    { url := baseUrl,
      headers := baseHeaders ++
        [("x-api-key", apiKey), ("anthropic-version", "2023-06-01")],
      body := jAddField baseBody "max_tokens" (Json.num 4000) }
  else if provider == "cohere" then
    { url := baseUrl,
      headers := baseHeaders ++ [("Authorization", "Bearer " ++ apiKey)],
      body := jAddField baseBody "max_tokens" (Json.num 4000) }
  else if provider == "mistral" then
    { url := baseUrl,
      headers := baseHeaders ++ [("Authorization", "Bearer " ++ apiKey)],
      body := jAddField baseBody "max_tokens" (Json.num 4000) }
  else if provider == "gemini" then
    { url := endpoint ++ "/models/" ++ model ++ ":generateContent?key=" ++ apiKey,
      headers := baseHeaders,
      body := Json.obj [("contents", Json.arr
        [Json.obj [("parts", Json.arr
          [Json.obj [("text", Json.str (lastContentD messages))]])]])] }
  else
    { url := baseUrl,
      headers := baseHeaders ++ [("Authorization", "Bearer " ++ apiKey)],
      body := jAddField baseBody "max_completion_tokens" (Json.num 4000) }

/-- Embedding of the response parsing (routes.ts lines 262-270): gemini reads
`candidates[0].content.parts[0].text`, anthropic reads `content[0].text`,
every other provider reads `choices[0].message.content`; each step of the
optional chain may yield undefined. -/
def extractAssistantText (provider : String) (r : Json) : Option String :=
  if provider == "gemini" then
    ((((((jGet "candidates" r).bind (jIdx 0)).bind (jGet "content")).bind
      (jGet "parts")).bind (jIdx 0)).bind (jGet "text")).bind jStr
  else if provider == "anthropic" then
    (((jGet "content" r).bind (jIdx 0)).bind (jGet "text")).bind jStr
  else
    ((((jGet "choices" r).bind (jIdx 0)).bind (jGet "message")).bind
      (jGet "content")).bind jStr

/-- A gemini-shaped 200 response carrying text `t`. -/
def geminiShape (t : String) : Json :=
  Json.obj [("candidates", Json.arr
    [Json.obj [("content", Json.obj [("parts", Json.arr
      [Json.obj [("text", Json.str t)]])])]])]

/-- An anthropic-shaped 200 response carrying text `t`. -/
def anthropicShape (t : String) : Json :=
  Json.obj [("content", Json.arr [Json.obj [("text", Json.str t)]])]

/-- An OpenAI-shaped 200 response carrying text `t` (github, openai, cohere,
mistral and the default branch all read this shape). -/
def openAiShape (t : String) : Json :=
  Json.obj [("choices", Json.arr
    [Json.obj [("message", Json.obj [("content", Json.str t)])]])]

/-- The server's in-memory state: the module-level `globalRateLimit` and
`rateLimitMap` of routes.ts, and the `MemStorage` maps of storage.ts, with
`randomUUID` for message ids modelled as a counter. -/
structure ServerState where
  globalRateLimit : Nat
  rateLimits : RLMap
  chats : List (String × Chat)
  messages : List Message
  nextId : Nat
deriving DecidableEq, Repr

/-- Normalization `insertMessage.model || null` in `MemStorage.createMessage`:
a missing or empty model string is stored as null. -/
def normModel : Option String → Option String
  | some s => if s = "" then none else some s
  | none => none

/-- Embedding of `MemStorage.createMessage`: generate an id, stamp the time,
normalize the model, and append to the messages map (a fresh `Map.set` key
goes to the end, preserving insertion order). -/
def createMessage (st : ServerState) (chatId : String) (role : Role)
    (content : String) (model : Option String) (now : Nat) : ServerState :=
  { st with
      messages := st.messages ++
        [{ id := st.nextId, chatId := chatId, role := role, content := content,
           model := normModel model, timestamp := now }],
      nextId := st.nextId + 1 }

/-- Stable insertion of a message into a timestamp-sorted list. -/
def insertByTs (m : Message) : List Message → List Message
  | [] => [m]
  | x :: xs => if x.timestamp ≤ m.timestamp then x :: insertByTs m xs else m :: x :: xs

/-- Ascending sort by timestamp, JS `sort((a, b) => ta - tb)`. -/
def sortByTs : List Message → List Message
  | [] => []
  | x :: xs => insertByTs x (sortByTs xs)

/-- Embedding of `MemStorage.getMessagesByChatId`: filter the stored messages
by chat id and sort ascending by timestamp. -/
def getMessagesByChatId (msgs : List Message) (chatId : String) : List Message :=
  sortByTs (msgs.filter (fun m => m.chatId == chatId))

/-- Embedding of `MemStorage.deleteChat` (storage.ts lines 69-77): remove the
chat and delete every message whose chatId matches; other entries keep their
relative order, as JS `Map.delete` does. -/
def deleteChatS (st : ServerState) (id : String) : ServerState :=
  { st with
      chats := st.chats.filter (fun p => !(p.1 == id)),
      messages := st.messages.filter (fun m => !(m.chatId == id)) }

/-- The vendor's HTTP response as seen by the handler: status code, parsed
JSON body (read on success), and raw text body (read on failure). -/
structure VendorResponse where
  status : Nat
  json : Json
  text : String

/-- The possible responses of `POST /api/chat`, one constructor per
`res.status(...).json(...)` site of the handler (routes.ts lines 159-311). -/
inductive ChatResponse where
  | rateLimited : ChatResponse
  | invalidRequest : ChatResponse
  | chatNotFound : ChatResponse
  | providerError : Nat → String → ChatResponse
  | emptyResponse : ChatResponse
  | success : String → Nat → String → ChatResponse
  | caughtRateLimited : ChatResponse
  | caughtUnauthorized : ChatResponse
  | serverError : String → ChatResponse
deriving DecidableEq, Repr

/-- The HTTP status code of each handler response. -/
def statusOf : ChatResponse → Nat
  | ChatResponse.rateLimited => 429
  | ChatResponse.invalidRequest => 400
  | ChatResponse.chatNotFound => 404
  | ChatResponse.providerError s _ => s
  | ChatResponse.emptyResponse => 500
  | ChatResponse.success _ _ _ => 200
  | ChatResponse.caughtRateLimited => 429
  | ChatResponse.caughtUnauthorized => 401
  | ChatResponse.serverError _ => 500

/-- The `error` string of each handler response body, as written in routes.ts. -/
def errorMessageOf : ChatResponse → Option String
  | ChatResponse.rateLimited =>
      some "Rate limit exceeded. Please wait before sending another message."
  | ChatResponse.invalidRequest => some "Invalid request format"
  | ChatResponse.chatNotFound => some "Chat not found"
  | ChatResponse.providerError _ _ => some "Failed to get response from AI model"
  | ChatResponse.emptyResponse => some "No response from AI model"
  | ChatResponse.success _ _ _ => none
  | ChatResponse.caughtRateLimited =>
      some "API rate limit exceeded. Please wait before sending another message."
  | ChatResponse.caughtUnauthorized =>
      some "Invalid API key. Please check your API key permissions."
  | ChatResponse.serverError _ => some "Failed to process chat request"

/-- Character-list prefix test used by the substring search. -/
def leadsWith : List Char → List Char → Bool
  | [], _ => true
  | _ :: _, [] => false
  | a :: as, b :: bs => a == b && leadsWith as bs

/-- Substring occurrence test on character lists. -/
def listContains (pat : List Char) : List Char → Bool
  | [] => pat.isEmpty
  | c :: rest => leadsWith pat (c :: rest) || listContains pat rest

/-- JS `String.includes`. -/
def includesStr (s pat : String) : Bool := listContains pat.toList s.toList

/-- The catch block of the handler (routes.ts lines 291-310): substring-match
the thrown error message to pick 429, 401, or a generic 500. -/
def mapCaughtError (msg : String) : ChatResponse :=
  if includesStr msg "quota" || includesStr msg "rate limit" then
    ChatResponse.caughtRateLimited
  else if includesStr msg "unauthorized" || includesStr msg "invalid" then
    ChatResponse.caughtUnauthorized
  else ChatResponse.serverError msg

/-- The V8 TypeError message thrown by `messages[messages.length - 1].role`
when the validated messages array is empty. -/
def undefinedRoleMessage : String :=
  "Cannot read properties of undefined (reading 'role')"

/-- State after the rate-limit check: only `rateLimitMap` is touched. -/
def st1Of (st : ServerState) (ip : String) (now : Nat) : ServerState :=
  { st with rateLimits := (checkRateLimit st.rateLimits ip st.globalRateLimit now).2 }

/-- Step 4 of the handler (routes.ts lines 187-196): persist the last supplied
message as a user Message iff its role is user. -/
def persistUserIfLast (st : ServerState) (chatId : String) (um : ChatMessage)
    (now : Nat) : ServerState :=
  if um.role = Role.user then createMessage st chatId Role.user um.content none now
  else st

/-- Provider name from the raw body, defaulting to github (routes.ts line 201). -/
def providerOf (body : Json) : String := getStringOr body "provider" "github"

/-- Endpoint from the raw body, defaulting to the github endpoint (line 199). -/
def endpointOf (body : Json) : String :=
  getStringOr body "endpoint" (defaultEndpoints "github")

/-- Api key from the raw body, defaulting to the GITHUB_TOKEN env value (line 200). -/
def apiKeyOf (body : Json) (token : String) : String := getStringOr body "apiKey" token

/-- Model id after destructuring default (routes.ts line 179). -/
def modelOf (cr : ChatRequest) : String := cr.model.getD "gpt-5"

/-- The outbound request the handler builds for a validated request. -/
def outboundOf (body : Json) (token : String) (cr : ChatRequest) : OutboundRequest :=
  buildProviderRequest (providerOf body) (endpointOf body) (apiKeyOf body token)
    (modelOf cr) cr.messages

/-- Tail of the handler from the vendor response on (routes.ts lines 250-289):
pass a non-ok status through with the raw error text; on 200 extract the
assistant text, treat a missing or empty extraction as the 500
no-response error, else persist the assistant Message and answer with
message, messageId and model. -/
def handleVendorResponse (st2 : ServerState) (chatId provider model : String)
    (now : Nat) (resp : VendorResponse) : ChatResponse × ServerState :=
  if 200 ≤ resp.status ∧ resp.status < 300 then
    match extractAssistantText provider resp.json with
    | none => (ChatResponse.emptyResponse, st2)
    | some t =>
        if t = "" then (ChatResponse.emptyResponse, st2)
        else (ChatResponse.success t st2.nextId model,
              createMessage st2 chatId Role.assistant t (some model) now)
  else (ChatResponse.providerError resp.status resp.text, st2)

/-- Embedding of the `POST /api/chat` handler (routes.ts lines 159-311): rate
limit, validate, look up the chat, persist the user message, build and send
the provider request, and handle the response; an empty validated messages
array throws at the `userMessage.role` access and lands in the catch block.
The outbound call is a function parameter, so the theorems can quantify over
vendor behaviour. -/
def postChat (st : ServerState) (ip : String) (now : Nat) (token : String)
    (vendor : OutboundRequest → VendorResponse) (body : Json) :
    ChatResponse × ServerState :=
  let st1 := st1Of st ip now
  if (checkRateLimit st.rateLimits ip st.globalRateLimit now).1 then
    match chatRequestParse body with
    | none => (ChatResponse.invalidRequest, st1)
    | some cr =>
        match mapLookup st1.chats cr.chatId with
        | none => (ChatResponse.chatNotFound, st1)
        | some _ =>
            match cr.messages.getLast? with
            | none => (mapCaughtError undefinedRoleMessage, st1)
            | some um =>
                let st2 := persistUserIfLast st1 cr.chatId um now
                handleVendorResponse st2 cr.chatId (providerOf body) (modelOf cr)
                  now (vendor (outboundOf body token cr))
  else (ChatResponse.rateLimited, st1)

theorem postChat_path (st : ServerState) (ip : String) (now : Nat) (token : String)
    (vendor : OutboundRequest → VendorResponse) (body : Json) (cr : ChatRequest)
    (chat : Chat) (um : ChatMessage)
    (hrl : (checkRateLimit st.rateLimits ip st.globalRateLimit now).1 = true)
    (hparse : chatRequestParse body = some cr)
    (hchat : mapLookup st.chats cr.chatId = some chat)
    (hlast : cr.messages.getLast? = some um) :
    postChat st ip now token vendor body =
      handleVendorResponse (persistUserIfLast (st1Of st ip now) cr.chatId um now)
        cr.chatId (providerOf body) (modelOf cr) now (vendor (outboundOf body token cr)) := by
  have hchats : (st1Of st ip now).chats = st.chats := rfl
  simp only [postChat, hrl, hparse, hchats, hchat, hlast, if_true]

theorem runCalls_append (ip : String) (limit : Nat) (ts us : List Nat) :
    ∀ m : RLMap, runCalls m ip limit (ts ++ us) =
      ((runCalls m ip limit ts).1 ++ (runCalls (runCalls m ip limit ts).2 ip limit us).1,
       (runCalls (runCalls m ip limit ts).2 ip limit us).2) := by
  induction ts with
  | nil => intro m; simp [runCalls]
  | cons t ts ih =>
      intro m
      simp only [List.cons_append, runCalls, List.append_eq]
      rw [ih ((checkRateLimit m ip limit t).2)]

/-- C1: checkRateLimit counting contract. For every client key and limit ≥ 1:
a call with no existing entry allows and installs count 1 with resetTime
now + 60000 ms; while an entry's window is unexpired a call allows and
increments exactly when count < limit, and rejects leaving the entry intact
when count has reached the limit; in particular, starting fresh, the first
limit calls inside the window all allow and the (limit+1)-th call inside the
same window rejects, leaving count = limit and the resetTime unchanged. -/
theorem checkRateLimit_counting_contract (ip : String) (limit : Nat) (hl : 1 ≤ limit) :
    (∀ (m : RLMap) (now : Nat), mapLookup m ip = none →
      checkRateLimit m ip limit now = (true, mapSet m ip ⟨1, now + 60000⟩)) ∧
    (∀ (m : RLMap) (now c r : Nat), mapLookup m ip = some ⟨c, r⟩ → now ≤ r →
      c < limit → checkRateLimit m ip limit now = (true, mapSet m ip ⟨c + 1, r⟩)) ∧
    (∀ (m : RLMap) (now c r : Nat), mapLookup m ip = some ⟨c, r⟩ → now ≤ r →
      limit ≤ c → checkRateLimit m ip limit now = (false, m)) ∧
    (∀ (m : RLMap) (t0 tf : Nat) (ts : List Nat), mapLookup m ip = none →
      ts.length = limit - 1 → (∀ t ∈ ts, t ≤ t0 + 60000) → tf ≤ t0 + 60000 →
      runCalls m ip limit (t0 :: (ts ++ [tf])) =
        (List.replicate limit true ++ [false], mapSet m ip ⟨limit, t0 + 60000⟩)) := by
  refine ⟨?_, ?_, ?_, ?_⟩
  · intro m now h
    exact checkRateLimit_fresh m ip limit now h
  · intro m now c r h hw hc
    exact checkRateLimit_inc m ip limit now c r h hw hc
  · intro m now c r h hw hc
    exact checkRateLimit_reject m ip limit now c r h hw hc
  · intro m t0 tf ts hm hlen hts htf
    have h1 := checkRateLimit_fresh m ip limit t0 hm
    have hm1 : mapLookup (mapSet m ip ⟨1, t0 + 60000⟩) ip = some ⟨1, t0 + 60000⟩ :=
      mapLookup_mapSet_self m ip ⟨1, t0 + 60000⟩
    have hfill := runCalls_fill ip limit ts (mapSet m ip ⟨1, t0 + 60000⟩) 1 (t0 + 60000)
      hm1 hts (by omega)
    have hentry : (1 + ts.length : Nat) = limit := by omega
    rw [hentry] at hfill
    rw [mapSet_mapSet] at hfill
    have hmfin : mapLookup (mapSet m ip ⟨limit, t0 + 60000⟩) ip = some ⟨limit, t0 + 60000⟩ :=
      mapLookup_mapSet_self m ip ⟨limit, t0 + 60000⟩
    have hrej := checkRateLimit_reject (mapSet m ip ⟨limit, t0 + 60000⟩) ip limit tf limit
      (t0 + 60000) hmfin htf le_rfl
    simp only [runCalls, h1]
    rw [runCalls_append ip limit ts [tf] (mapSet m ip ⟨1, t0 + 60000⟩)]
    rw [hfill]
    simp only [runCalls, hrej]
    have hrep : List.replicate limit true = true :: List.replicate ts.length true := by
      have : limit = ts.length + 1 := by omega
      rw [this, List.replicate_succ]
    rw [hrep]
    simp

/-- Witness for C1 at ip a, limit 2, times 0, 10, 20 from an empty map. -/
theorem checkRateLimit_counting_contract_witness :
    runCalls [] "a" 2 (0 :: ([10] ++ [20])) =
      (List.replicate 2 true ++ [false], mapSet [] "a" ⟨2, 0 + 60000⟩) :=
  (checkRateLimit_counting_contract "a" 2 (by decide)).2.2.2 [] 0 20 [10] (by decide)
    (by decide) (by decide) (by decide)

/-- C2 counterexample: with an entry of count 3 and resetTime 1000 under limit
3, a call at now = 1000 (exactly at the boundary, 60 seconds after a window
start at 940000 ms earlier markers aside) is rejected and the entry is left
unchanged, while the claim requires the window to count as expired with
allowed = true and a fresh entry. -/
theorem checkRateLimit_boundary_cex :
    checkRateLimit [("a", ⟨3, 1000⟩)] "a" 3 1000 = (false, [("a", ⟨3, 1000⟩)]) ∧
    checkRateLimit [("a", ⟨3, 1000⟩)] "a" 3 1000 ≠
      (true, mapSet [("a", ⟨3, 1000⟩)] "a" ⟨1, 1000 + 60000⟩) := by
  constructor
  · decide
  · decide

/-- C2 (amended): only a current time strictly past resetTime is treated as an
expired window, overwriting the entry with count 1 and resetTime now + 60000
and allowing the call; at now exactly equal to resetTime the entry is still
inside its window, so a call whose count has reached the limit is rejected
with the entry unchanged. -/
theorem checkRateLimit_expiry_strict (ip : String) (limit : Nat) :
    (∀ (m : RLMap) (c r now : Nat), mapLookup m ip = some ⟨c, r⟩ → r < now →
      checkRateLimit m ip limit now = (true, mapSet m ip ⟨1, now + 60000⟩)) ∧
    (∀ (m : RLMap) (c r : Nat), mapLookup m ip = some ⟨c, r⟩ → limit ≤ c →
      checkRateLimit m ip limit r = (false, m)) := by
  constructor
  · intro m c r now h hw
    exact checkRateLimit_expired m ip limit now c r h hw
  · intro m c r h hc
    exact checkRateLimit_reject m ip limit r c r h le_rfl hc

/-- Witness for the amended C2 at a concrete entry. -/
theorem checkRateLimit_expiry_strict_witness :
    checkRateLimit [("a", ⟨3, 1000⟩)] "a" 3 1001 =
      (true, mapSet [("a", ⟨3, 1000⟩)] "a" ⟨1, 1001 + 60000⟩) ∧
    checkRateLimit [("a", ⟨3, 1000⟩)] "a" 3 1000 = (false, [("a", ⟨3, 1000⟩)]) :=
  ⟨(checkRateLimit_expiry_strict "a" 3).1 [("a", ⟨3, 1000⟩)] 3 1000 1001 (by decide)
    (by decide),
   (checkRateLimit_expiry_strict "a" 3).2 [("a", ⟨3, 1000⟩)] 3 1000 (by decide) (by decide)⟩

/-- C3: gemini request shaping. For provider gemini and every endpoint, api
key, model and nonempty message list, the outbound request targets
endpoint/models/model:generateContent?key=apiKey, carries no Authorization
header (only Content-Type survives), and its body wraps exactly the final
message's content as contents[0].parts[0].text, dropping all prior turns. -/
theorem gemini_request_shaping (endpoint apiKey model : String)
    (ms : List ChatMessage) (m : ChatMessage) :
    buildProviderRequest "gemini" endpoint apiKey model (ms ++ [m]) =
      { url := endpoint ++ "/models/" ++ model ++ ":generateContent?key=" ++ apiKey,
        headers := [("Content-Type", "application/json")],
        body := Json.obj [("contents", Json.arr
          [Json.obj [("parts", Json.arr
            [Json.obj [("text", Json.str m.content)]])]])] } ∧
    "Authorization" ∉
      (buildProviderRequest "gemini" endpoint apiKey model (ms ++ [m])).headers.map
        Prod.fst := by
  have hlast : lastContentD (ms ++ [m]) = m.content := by
    simp [lastContentD]
  constructor
  · simp [buildProviderRequest, hlast]
  · simp [buildProviderRequest]

/-- C4: response extraction. A gemini-shaped 200 body yields the text at
candidates[0].content.parts[0].text, an anthropic-shaped one the text at
content[0].text, and for every other provider an OpenAI-shaped one the text
at choices[0].message.content; and whenever the vendor answers 2xx but the
expected field is absent, the handler responds with the 500
no-response-from-AI-model error and persists no assistant Message (the state
stays exactly as it was after the user-message step). -/
theorem response_extraction :
    (∀ t : String, extractAssistantText "gemini" (geminiShape t) = some t) ∧
    (∀ t : String, extractAssistantText "anthropic" (anthropicShape t) = some t) ∧
    (∀ (p t : String), p ≠ "gemini" → p ≠ "anthropic" →
      extractAssistantText p (openAiShape t) = some t) ∧
    (∀ (st : ServerState) (ip : String) (now : Nat) (token : String)
      (vendor : OutboundRequest → VendorResponse) (body : Json) (cr : ChatRequest)
      (chat : Chat) (um : ChatMessage),
      (checkRateLimit st.rateLimits ip st.globalRateLimit now).1 = true →
      chatRequestParse body = some cr →
      mapLookup st.chats cr.chatId = some chat →
      cr.messages.getLast? = some um →
      200 ≤ (vendor (outboundOf body token cr)).status →
      (vendor (outboundOf body token cr)).status < 300 →
      extractAssistantText (providerOf body) (vendor (outboundOf body token cr)).json =
        none →
      postChat st ip now token vendor body =
        (ChatResponse.emptyResponse, persistUserIfLast (st1Of st ip now) cr.chatId um now)) ∧
    statusOf ChatResponse.emptyResponse = 500 ∧
    errorMessageOf ChatResponse.emptyResponse = some "No response from AI model" := by
  refine ⟨?_, ?_, ?_, ?_, rfl, rfl⟩
  · intro t
    rfl
  · intro t
    rfl
  · intro p t h1 h2
    have hb1 : (p == "gemini") = false := beq_eq_false_iff_ne.mpr h1
    have hb2 : (p == "anthropic") = false := beq_eq_false_iff_ne.mpr h2
    simp [extractAssistantText, hb1, hb2, openAiShape, jGet, jIdx, jStr]
  · intro st ip now token vendor body cr chat um hrl hparse hchat hlast hs1 hs2 hext
    rw [postChat_path st ip now token vendor body cr chat um hrl hparse hchat hlast]
    simp [handleVendorResponse, hs1, hs2, hext]

/-- Example chat record used by concrete handler scenarios. -/
def exChat : Chat := ⟨"c1", "chat one", 0, none⟩

/-- Example server state for the C4 witness: limit 3, empty limiter map, one
chat, no messages. -/
def exStC4 : ServerState := ⟨3, [], [("c1", exChat)], [], 0⟩

/-- Example request body for the C4 witness. -/
def exBodyC4 : Json := Json.obj [("chatId", Json.str "c1"),
  ("messages", Json.arr [Json.obj
    [("role", Json.str "user"), ("content", Json.str "hi")]])]

/-- Vendor stub for the C4 witness: 200 with an empty JSON object. -/
def exVendC4 : OutboundRequest → VendorResponse := fun _ => ⟨200, Json.obj [], ""⟩

/-- Witness for C4: concrete shapes and a concrete 200-without-text turn. -/
theorem response_extraction_witness :
    extractAssistantText "gemini" (geminiShape "hello") = some "hello" ∧
    extractAssistantText "anthropic" (anthropicShape "hello") = some "hello" ∧
    extractAssistantText "mistral" (openAiShape "hello") = some "hello" ∧
    postChat exStC4 "ip" 0 "tok" exVendC4 exBodyC4 =
      (ChatResponse.emptyResponse,
       persistUserIfLast (st1Of exStC4 "ip" 0) "c1" ⟨Role.user, "hi"⟩ 0) :=
  ⟨response_extraction.1 "hello",
   response_extraction.2.1 "hello",
   response_extraction.2.2.1 "mistral" "hello" (by decide) (by decide),
   response_extraction.2.2.2.1 exStC4 "ip" 0 "tok" exVendC4 exBodyC4
     ⟨"c1", [⟨Role.user, "hi"⟩], none⟩ exChat ⟨Role.user, "hi"⟩
     (by decide) (by decide) (by decide) (by decide) (by decide) (by decide) (by decide)⟩

/-- C5: provider failure leaves partial state. When the vendor call comes back
with a non-2xx status, the handler answers with that same status and the raw
vendor error text as details, the user message persisted before the call is
still in storage, and no assistant Message is created. -/
theorem provider_failure_partial_state (st : ServerState) (ip : String) (now : Nat)
    (token : String) (vendor : OutboundRequest → VendorResponse) (body : Json)
    (cr : ChatRequest) (chat : Chat) (um : ChatMessage)
    (hrl : (checkRateLimit st.rateLimits ip st.globalRateLimit now).1 = true)
    (hparse : chatRequestParse body = some cr)
    (hchat : mapLookup st.chats cr.chatId = some chat)
    (hlast : cr.messages.getLast? = some um)
    (hrole : um.role = Role.user)
    (hbad : ¬(200 ≤ (vendor (outboundOf body token cr)).status ∧
              (vendor (outboundOf body token cr)).status < 300)) :
    postChat st ip now token vendor body =
      (ChatResponse.providerError (vendor (outboundOf body token cr)).status
        (vendor (outboundOf body token cr)).text,
       createMessage (st1Of st ip now) cr.chatId Role.user um.content none now) ∧
    statusOf (ChatResponse.providerError (vendor (outboundOf body token cr)).status
        (vendor (outboundOf body token cr)).text) =
      (vendor (outboundOf body token cr)).status ∧
    (createMessage (st1Of st ip now) cr.chatId Role.user um.content none now).messages =
      st.messages ++ [⟨st.nextId, cr.chatId, Role.user, um.content, none, now⟩] := by
  refine ⟨?_, rfl, ?_⟩
  · rw [postChat_path st ip now token vendor body cr chat um hrl hparse hchat hlast]
    simp [handleVendorResponse, hbad, persistUserIfLast, hrole]
  · simp [createMessage, st1Of, normModel]

/-- Example state for the C5 witness. -/
def exStC5 : ServerState := ⟨3, [], [("c1", exChat)], [], 0⟩

/-- Example body for the C5 witness. -/
def exBodyC5 : Json := Json.obj [("chatId", Json.str "c1"),
  ("messages", Json.arr [Json.obj
    [("role", Json.str "user"), ("content", Json.str "hi")]])]

/-- Vendor stub for the C5 witness: a 503 with a raw error body. -/
def exVendC5 : OutboundRequest → VendorResponse :=
  fun _ => ⟨503, Json.obj [], "upstream down"⟩

/-- Witness for C5 at a concrete failing turn. -/
theorem provider_failure_partial_state_witness :
    postChat exStC5 "ip" 0 "tok" exVendC5 exBodyC5 =
      (ChatResponse.providerError
        (exVendC5 (outboundOf exBodyC5 "tok" ⟨"c1", [⟨Role.user, "hi"⟩], none⟩)).status
        (exVendC5 (outboundOf exBodyC5 "tok" ⟨"c1", [⟨Role.user, "hi"⟩], none⟩)).text,
       createMessage (st1Of exStC5 "ip" 0) "c1" Role.user "hi" none 0) ∧
    statusOf (ChatResponse.providerError
        (exVendC5 (outboundOf exBodyC5 "tok" ⟨"c1", [⟨Role.user, "hi"⟩], none⟩)).status
        (exVendC5 (outboundOf exBodyC5 "tok" ⟨"c1", [⟨Role.user, "hi"⟩], none⟩)).text) =
      (exVendC5 (outboundOf exBodyC5 "tok" ⟨"c1", [⟨Role.user, "hi"⟩], none⟩)).status ∧
    (createMessage (st1Of exStC5 "ip" 0) "c1" Role.user "hi" none 0).messages =
      exStC5.messages ++ [⟨exStC5.nextId, "c1", Role.user, "hi", none, 0⟩] :=
  provider_failure_partial_state exStC5 "ip" 0 "tok" exVendC5 exBodyC5
    ⟨"c1", [⟨Role.user, "hi"⟩], none⟩ exChat ⟨Role.user, "hi"⟩
    (by decide) (by decide) (by decide) (by decide) (by decide) (by decide)

/-- C6 (amended): a successful POST /api/chat call whose supplied message list
ends with a user-role message creates exactly two new Messages — first the
user one with model null, then the assistant one whose model field equals the
requested model id (provided that id is a nonempty string; an empty model
string is stored as null by createMessage) — and answers with the message
text, the new assistant message id, and the model. When the final supplied
message has role assistant, only the assistant Message is created (see the
counterexample). -/
theorem success_turn_persistence (st : ServerState) (ip : String) (now : Nat)
    (token : String) (vendor : OutboundRequest → VendorResponse) (body : Json)
    (cr : ChatRequest) (chat : Chat) (um : ChatMessage) (t : String)
    (hrl : (checkRateLimit st.rateLimits ip st.globalRateLimit now).1 = true)
    (hparse : chatRequestParse body = some cr)
    (hchat : mapLookup st.chats cr.chatId = some chat)
    (hlast : cr.messages.getLast? = some um)
    (hrole : um.role = Role.user)
    (hok1 : 200 ≤ (vendor (outboundOf body token cr)).status)
    (hok2 : (vendor (outboundOf body token cr)).status < 300)
    (hext : extractAssistantText (providerOf body)
      (vendor (outboundOf body token cr)).json = some t)
    (hne : t ≠ "") (hm : modelOf cr ≠ "") :
    postChat st ip now token vendor body =
      (ChatResponse.success t (st.nextId + 1) (modelOf cr),
       createMessage (createMessage (st1Of st ip now) cr.chatId Role.user um.content
         none now) cr.chatId Role.assistant t (some (modelOf cr)) now) ∧
    (createMessage (createMessage (st1Of st ip now) cr.chatId Role.user um.content
       none now) cr.chatId Role.assistant t (some (modelOf cr)) now).messages =
      st.messages ++
        [⟨st.nextId, cr.chatId, Role.user, um.content, none, now⟩,
         ⟨st.nextId + 1, cr.chatId, Role.assistant, t, some (modelOf cr), now⟩] := by
  constructor
  · rw [postChat_path st ip now token vendor body cr chat um hrl hparse hchat hlast]
    simp [handleVendorResponse, hok1, hok2, hext, hne, persistUserIfLast, hrole,
      createMessage, st1Of]
  · simp [createMessage, st1Of, normModel, hm]

/-- Example state for the C6 witness. -/
def exStC6w : ServerState := ⟨3, [], [("c1", exChat)], [], 0⟩

/-- Example body for the C6 witness: one user message. -/
def exBodyC6w : Json := Json.obj [("chatId", Json.str "c1"),
  ("messages", Json.arr [Json.obj
    [("role", Json.str "user"), ("content", Json.str "hi")]])]

/-- Vendor stub for the C6 witness: 200 with an OpenAI-shaped body. -/
def exVendC6w : OutboundRequest → VendorResponse :=
  fun _ => ⟨200, openAiShape "yo", ""⟩

/-- Witness for the amended C6 at a concrete successful turn. -/
theorem success_turn_persistence_witness :
    postChat exStC6w "ip" 0 "tok" exVendC6w exBodyC6w =
      (ChatResponse.success "yo" 1 "gpt-5",
       createMessage (createMessage (st1Of exStC6w "ip" 0) "c1" Role.user "hi" none 0)
         "c1" Role.assistant "yo" (some "gpt-5") 0) ∧
    (createMessage (createMessage (st1Of exStC6w "ip" 0) "c1" Role.user "hi" none 0)
       "c1" Role.assistant "yo" (some "gpt-5") 0).messages =
      exStC6w.messages ++
        [⟨0, "c1", Role.user, "hi", none, 0⟩,
         ⟨1, "c1", Role.assistant, "yo", some "gpt-5", 0⟩] :=
  success_turn_persistence exStC6w "ip" 0 "tok" exVendC6w exBodyC6w
    ⟨"c1", [⟨Role.user, "hi"⟩], none⟩ exChat ⟨Role.user, "hi"⟩ "yo"
    (by decide) (by decide) (by decide) (by decide) (by decide) (by decide) (by decide)
    (by decide) (by decide) (by decide)

/-- Example state for the C6 counterexample. -/
def exStC6 : ServerState := ⟨3, [], [("c1", exChat)], [], 0⟩

/-- Body for the C6 counterexample: the message list ends with an
assistant-role message. -/
def exBodyC6 : Json := Json.obj [("chatId", Json.str "c1"),
  ("messages", Json.arr [Json.obj
    [("role", Json.str "assistant"), ("content", Json.str "prev")]])]

/-- Vendor stub for the C6 counterexample. -/
def exVendC6 : OutboundRequest → VendorResponse :=
  fun _ => ⟨200, openAiShape "yo", ""⟩

/-- C6 counterexample: a successful POST /api/chat call whose last supplied
message has role assistant creates exactly ONE new Message (the assistant
reply) and none with role user, refuting the claim that every successful call
creates two. -/
theorem success_turn_cex :
    (postChat exStC6 "ip" 0 "tok" exVendC6 exBodyC6).1 =
      ChatResponse.success "yo" 0 "gpt-5" ∧
    (postChat exStC6 "ip" 0 "tok" exVendC6 exBodyC6).2.messages =
      [⟨0, "c1", Role.assistant, "yo", some "gpt-5", 0⟩] := by
  constructor
  · decide
  · decide

/-- C7: a request rejected by checkRateLimit fails immediately with the 429
rate-limited response, leaves the whole server state unchanged (in particular
persists no Message, since a rejected check does not even touch the limiter
map), and performs no outbound provider call: the result is the same for
every possible vendor behaviour. -/
theorem rate_limited_no_effects (st : ServerState) (ip : String) (now : Nat)
    (token : String) (body : Json)
    (hrej : (checkRateLimit st.rateLimits ip st.globalRateLimit now).1 = false) :
    (∀ vendor : OutboundRequest → VendorResponse,
      postChat st ip now token vendor body = (ChatResponse.rateLimited, st)) ∧
    statusOf ChatResponse.rateLimited = 429 := by
  have heq := checkRateLimit_false_eq st.rateLimits ip st.globalRateLimit now hrej
  constructor
  · intro vendor
    simp only [postChat, hrej, st1Of, heq, Bool.false_eq_true, if_false]
  · rfl

/-- Example state for the C7 witness: limit 1 with the window already full. -/
def exStC7 : ServerState := ⟨1, [("ip", ⟨1, 60000⟩)], [("c1", exChat)], [], 0⟩

/-- Example body for the C7 witness (would even be valid). -/
def exBodyC7 : Json := Json.obj [("chatId", Json.str "c1"),
  ("messages", Json.arr [Json.obj
    [("role", Json.str "user"), ("content", Json.str "hi")]])]

/-- Vendor stub for the C7 witness; it is never consulted. -/
def exVendC7 : OutboundRequest → VendorResponse := fun _ => ⟨200, Json.null, ""⟩

/-- Witness for C7 at a concrete rejected request. -/
theorem rate_limited_no_effects_witness :
    postChat exStC7 "ip" 0 "tok" exVendC7 exBodyC7 = (ChatResponse.rateLimited, exStC7) ∧
    statusOf ChatResponse.rateLimited = 429 :=
  ⟨(rate_limited_no_effects exStC7 "ip" 0 "tok" exBodyC7 (by decide)).1 exVendC7,
   (rate_limited_no_effects exStC7 "ip" 0 "tok" exBodyC7 (by decide)).2⟩

/-- C8 counterexample: an invalid payload (an empty JSON object) sent from a
fresh client does get the 400 invalid-request response, but the rate limiter
state HAS changed: the client's entry is installed with count 1 before
validation runs, so the final state differs from the initial one, refuting
the no-state-change claim. -/
theorem validation_side_effect_cex :
    postChat ⟨3, [], [], [], 0⟩ "1.2.3.4" 0 "tok"
        (fun _ => ⟨200, Json.null, ""⟩) (Json.obj []) =
      (ChatResponse.invalidRequest,
       ⟨3, [("1.2.3.4", ⟨1, 60000⟩)], [], [], 0⟩) ∧
    (⟨3, [("1.2.3.4", ⟨1, 60000⟩)], [], [], 0⟩ : ServerState) ≠ ⟨3, [], [], [], 0⟩ := by
  constructor
  · decide
  · decide

/-- C8 (amended): a payload that fails chatRequestSchema is answered with the
400 invalid-request response before any message persistence or provider call
— messages and chats are untouched and the result is independent of the
vendor — but the rate-limit check runs first, so the client's limiter entry
has already been updated by the time validation fails. -/
theorem validation_after_rate_limit (st : ServerState) (ip : String) (now : Nat)
    (token : String) (body : Json)
    (hrl : (checkRateLimit st.rateLimits ip st.globalRateLimit now).1 = true)
    (hparse : chatRequestParse body = none) :
    (∀ vendor : OutboundRequest → VendorResponse,
      postChat st ip now token vendor body =
        (ChatResponse.invalidRequest, st1Of st ip now)) ∧
    (st1Of st ip now).messages = st.messages ∧
    (st1Of st ip now).chats = st.chats ∧
    (st1Of st ip now).rateLimits =
      (checkRateLimit st.rateLimits ip st.globalRateLimit now).2 ∧
    statusOf ChatResponse.invalidRequest = 400 := by
  refine ⟨?_, rfl, rfl, rfl, rfl⟩
  intro vendor
  simp only [postChat, hrl, hparse, if_true]

/-- Witness for the amended C8 at a fresh client and an empty-object payload. -/
theorem validation_after_rate_limit_witness :
    postChat ⟨3, [], [], [], 0⟩ "ip" 0 "tok" (fun _ => ⟨200, Json.null, ""⟩)
        (Json.obj [("x", Json.num 1)]) =
      (ChatResponse.invalidRequest, st1Of ⟨3, [], [], [], 0⟩ "ip" 0) ∧
    statusOf ChatResponse.invalidRequest = 400 :=
  ⟨(validation_after_rate_limit ⟨3, [], [], [], 0⟩ "ip" 0 "tok"
      (Json.obj [("x", Json.num 1)]) (by decide) (by decide)).1
      (fun _ => ⟨200, Json.null, ""⟩),
   (validation_after_rate_limit ⟨3, [], [], [], 0⟩ "ip" 0 "tok"
      (Json.obj [("x", Json.num 1)]) (by decide) (by decide)).2.2.2.2⟩

theorem filter_after_delete_self (msgs : List Message) (id : String) :
    (msgs.filter (fun m => !(m.chatId == id))).filter (fun m => m.chatId == id) = [] := by
  induction msgs with
  | nil => rfl
  | cons m rest ih =>
      by_cases h : m.chatId == id
      · simp [List.filter_cons, h, ih]
      · simp [List.filter_cons, h, ih]

theorem filter_after_delete_other (msgs : List Message) (id other : String)
    (h : other ≠ id) :
    (msgs.filter (fun m => !(m.chatId == id))).filter (fun m => m.chatId == other) =
      msgs.filter (fun m => m.chatId == other) := by
  induction msgs with
  | nil => rfl
  | cons m rest ih =>
      by_cases h1 : m.chatId == other
      · have hm : m.chatId = other := by
          exact beq_iff_eq.mp h1
        have h2 : (m.chatId == id) = false := by
          rw [hm]
          exact beq_eq_false_iff_ne.mpr h
        simp [List.filter_cons, h1, h2, ih]
      · by_cases h2 : m.chatId == id
        · simp [List.filter_cons, h1, h2, ih]
        · simp [List.filter_cons, h1, h2, ih]

/-- C9: cascade delete. After deleteChat(id), getMessagesByChatId(id) is
empty, and the messages retrievable for every other chat id are exactly what
they were before the deletion. -/
theorem delete_chat_cascade (st : ServerState) (id : String) :
    getMessagesByChatId (deleteChatS st id).messages id = [] ∧
    (∀ other : String, other ≠ id →
      getMessagesByChatId (deleteChatS st id).messages other =
        getMessagesByChatId st.messages other) := by
  constructor
  · show sortByTs ((st.messages.filter (fun m => !(m.chatId == id))).filter
      (fun m => m.chatId == id)) = []
    rw [filter_after_delete_self]
    rfl
  · intro other h
    show sortByTs ((st.messages.filter (fun m => !(m.chatId == id))).filter
      (fun m => m.chatId == other)) = _
    rw [filter_after_delete_other st.messages id other h]
    rfl

/-- Example state for the C9 witness: three messages across two chats. -/
def exStC9 : ServerState := ⟨3, [],
  [("a", ⟨"a", "A", 0, none⟩), ("b", ⟨"b", "B", 0, none⟩)],
  [⟨0, "a", Role.user, "m0", none, 0⟩, ⟨1, "b", Role.user, "m1", none, 1⟩,
   ⟨2, "a", Role.assistant, "m2", some "gpt-5", 2⟩], 3⟩

/-- Witness for C9: deleting chat a empties its messages and leaves chat b
untouched. -/
theorem delete_chat_cascade_witness :
    getMessagesByChatId (deleteChatS exStC9 "a").messages "a" = [] ∧
    getMessagesByChatId (deleteChatS exStC9 "a").messages "b" =
      getMessagesByChatId exStC9.messages "b" :=
  ⟨(delete_chat_cascade exStC9 "a").1,
   (delete_chat_cascade exStC9 "a").2 "b" (by decide)⟩

/-- C10: empty message list edge case. chatRequestSchema accepts a payload
whose messages array is empty, and such a (rate-limit-passing, existing-chat)
request makes the handler dereference messages[messages.length - 1].role on
undefined, so the thrown TypeError lands in the catch block: the endpoint
answers the generic 500 failed-to-process error (not 400), the client's
rate-limit count has already been consumed by the leading check, and no
Message is persisted. -/
theorem empty_messages_edge (cid : String) :
    chatRequestParse (Json.obj [("chatId", Json.str cid), ("messages", Json.arr [])]) =
      some ⟨cid, [], none⟩ ∧
    (∀ (st : ServerState) (ip : String) (now : Nat) (token : String)
      (body : Json) (cr : ChatRequest) (chat : Chat),
      (checkRateLimit st.rateLimits ip st.globalRateLimit now).1 = true →
      chatRequestParse body = some cr →
      cr.messages = [] →
      mapLookup st.chats cr.chatId = some chat →
      ∀ vendor : OutboundRequest → VendorResponse,
        postChat st ip now token vendor body =
          (ChatResponse.serverError undefinedRoleMessage, st1Of st ip now)) ∧
    statusOf (ChatResponse.serverError undefinedRoleMessage) = 500 ∧
    errorMessageOf (ChatResponse.serverError undefinedRoleMessage) =
      some "Failed to process chat request" := by
  refine ⟨rfl, ?_, rfl, rfl⟩
  intro st ip now token body cr chat hrl hparse hmsgs hchat vendor
  have hchats : (st1Of st ip now).chats = st.chats := rfl
  have hlast : cr.messages.getLast? = none := by
    rw [hmsgs]
    rfl
  have hcatch : mapCaughtError undefinedRoleMessage =
      ChatResponse.serverError undefinedRoleMessage := by
    decide
  simp only [postChat, hrl, hparse, hchats, hchat, hlast, if_true, hcatch]

/-- Example state for the C10 witness. -/
def exStC10 : ServerState := ⟨3, [], [("c1", exChat)], [], 0⟩

/-- Body for the C10 witness: valid per schema, empty messages array. -/
def exBodyC10 : Json := Json.obj [("chatId", Json.str "c1"), ("messages", Json.arr [])]

/-- Vendor stub for the C10 witness; it is never consulted. -/
def exVendC10 : OutboundRequest → VendorResponse := fun _ => ⟨200, Json.null, ""⟩

/-- Witness for C10 at a concrete empty-messages request. -/
theorem empty_messages_edge_witness :
    chatRequestParse exBodyC10 = some ⟨"c1", [], none⟩ ∧
    postChat exStC10 "ip" 0 "tok" exVendC10 exBodyC10 =
      (ChatResponse.serverError undefinedRoleMessage, st1Of exStC10 "ip" 0) :=
  ⟨(empty_messages_edge "c1").1,
   (empty_messages_edge "c1").2.1 exStC10 "ip" 0 "tok" exBodyC10 ⟨"c1", [], none⟩
     exChat (by decide) (by decide) rfl (by decide) exVendC10⟩
